import Mathlib

/-!
Shallow embedding of the leave-approval workflow of `routes/leave.js`:
the submission handler (`POST /request`), the decision handler
(`PUT /approve/:id`), the cancellation handler (`PUT /cancel/:id`) and the
pending-approvals listing (`GET /pending-approvals`), together with the
data carried by the `LeaveRequest` and `LeaveBalance` documents.

Dates are epoch milliseconds (`Int`), as produced by JavaScript
`Date.getTime()`.  Document ids and user ids are `Nat`.  The persistence
layer is a `Store` holding the list of leave requests and the list of
balance ledger entries; `findOne`/`findById` become `List.find?` and
`save` becomes an id-keyed replacement in the list.  The email service is
abstracted by a boolean `emailOk` telling whether `sendEmailNotification`
resolves or throws; a throw lands in the handler's generic `catch` block,
which is the `serverError` outcome.
-/

namespace LeaveApproval

/-- The leave types admitted by the submission route's enum check
(`body('leaveType').isIn([...])`). -/
inductive LeaveType
  | sick | vacation | personal | emergency | maternity | paternity | other
deriving DecidableEq, Repr

/-- Status of one sub-approval (`managerApproval.status` /
`coordinatorApproval.status`). -/
inductive ApprovalStatus
  | pending | approved | rejected
deriving DecidableEq, Repr

/-- Overall lifecycle status of a leave request (`leaveRequest.status`). -/
inductive OverallStatus
  | pending | approved | rejected | cancelled
deriving DecidableEq, Repr

/-- Role of the acting user, read from `user.role`. -/
inductive Role
  | employee | manager | coordinator | admin
deriving DecidableEq, Repr

/-- The decision body field of `PUT /approve/:id`
(`body('status').isIn(['approved', 'rejected'])`). -/
inductive Decision
  | approved | rejected
deriving DecidableEq, Repr

/-- One sub-approval record of a leave request. -/
structure SubApproval where
  status : ApprovalStatus
  approvedBy : Option Nat
  approvedAt : Option Int
  comments : Option String
deriving DecidableEq, Repr

/-- A `LeaveRequest` document. -/
structure LeaveRequest where
  id : Nat
  employee : Nat
  leaveType : LeaveType
  startDate : Int
  endDate : Int
  totalDays : Int
  reason : String
  academicYear : String
  status : OverallStatus
  managerApproval : SubApproval
  coordinatorApproval : SubApproval
deriving DecidableEq, Repr

/-- A `LeaveBalance` document, keyed by (employee, academicYear, leaveType). -/
structure LeaveBalance where
  employee : Nat
  academicYear : String
  leaveType : LeaveType
  totalAllocated : Int
  used : Int
  remaining : Int
deriving DecidableEq, Repr

/-- The document store: all leave requests and all balance ledger entries. -/
structure Store where
  requests : List LeaveRequest
  balances : List LeaveBalance
deriving DecidableEq, Repr

/-- Milliseconds in 24 hours, the divisor `1000 * 3600 * 24` of the day-count
computation. -/
def msPerDay : Int := 1000 * 3600 * 24

/-- JavaScript `Math.ceil(a / b)` for integer `a` and positive integer `b`:
the ceiling of the exact rational quotient, computed as the negated floor
division of the negation. -/
def jsCeilDiv (a b : Int) : Int := -((-a).fdiv b)

/-- The day count of `POST /request`:
`Math.ceil((end.getTime() - start.getTime()) / (1000 * 3600 * 24)) + 1`. -/
def computeTotalDays (startDate endDate : Int) : Int :=
  jsCeilDiv (endDate - startDate) msPerDay + 1

/-- Resolution of the academic year:
`academicYear || new Date().getFullYear().toString()`.  The current calendar
year string is passed in as `nowYear`; a missing field and the empty string
(falsy in JavaScript) both fall back to it. -/
def resolveYear (academicYear : Option String) (nowYear : String) : String :=
  match academicYear with
  | none => nowYear
  | some s => if s = "" then nowYear else s

/-- `LeaveBalance.findOne({ employee, academicYear, leaveType })`. -/
def findBalance (bs : List LeaveBalance) (emp : Nat) (year : String)
    (lt : LeaveType) : Option LeaveBalance :=
  bs.find? (fun b => b.employee == emp && b.academicYear == year && b.leaveType == lt)

/-- Outcome of the submission handler, as seen by the HTTP caller. -/
inductive SubmitOutcome
  | invalidRange
  | pastDate
  | insufficientBalance (available requested : Int)
  | created (req : LeaveRequest)
  | serverError
deriving DecidableEq, Repr

/-- A sub-approval as it stands on a freshly created request.
Modelled from the spec: the Mongoose schema files (`models/LeaveRequest.js`)
are not part of the snapshot; §3 of the design document states that a request
is created with both sub-approvals `pending` and no approver recorded. -/
def freshSubApproval : SubApproval :=
  { status := ApprovalStatus.pending, approvedBy := none,
    approvedAt := none, comments := none }

/-- The document literal `new LeaveRequest({...})` built by `POST /request`:
overall status and both sub-approvals start `pending` (schema defaults,
§3 of the design document), `totalDays` is the computed day count and
`academicYear` the resolved year. -/
def newRequest (freshId employeeId : Nat) (leaveType : LeaveType)
    (startDate endDate : Int) (reason currentYear : String) : LeaveRequest :=
  { id := freshId, employee := employeeId, leaveType := leaveType,
    startDate := startDate, endDate := endDate,
    totalDays := computeTotalDays startDate endDate,
    reason := reason, academicYear := currentYear,
    status := OverallStatus.pending,
    managerApproval := freshSubApproval,
    coordinatorApproval := freshSubApproval }

/-- The `POST /request` handler.  `freshId` is the id the store assigns to
the new document, `now` is `new Date()` in epoch milliseconds and `nowYear`
is `new Date().getFullYear().toString()`.  `hasManager` tells whether
`employee.manager` is set (only then is the notification attempted) and
`emailOk` whether `sendEmailNotification` resolves; a rejected notification
promise is caught by the handler's generic `catch`, after the request was
already saved. -/
def submit (st : Store) (freshId employeeId : Nat) (leaveType : LeaveType)
    (startDate endDate : Int) (reason : String) (academicYear : Option String)
    (now : Int) (nowYear : String) (hasManager : Bool) (emailOk : Bool) :
    SubmitOutcome × Store :=
  if startDate ≥ endDate then (SubmitOutcome.invalidRange, st)
  else if startDate < now then (SubmitOutcome.pastDate, st)
  else
    let totalDays := computeTotalDays startDate endDate
    let currentYear := resolveYear academicYear nowYear
    let proceed : SubmitOutcome × Store :=
      let req : LeaveRequest :=
        newRequest freshId employeeId leaveType startDate endDate reason currentYear
      let st2 : Store := { st with requests := st.requests ++ [req] }
      if hasManager && !emailOk then (SubmitOutcome.serverError, st2)
      else (SubmitOutcome.created req, st2)
    match findBalance st.balances employeeId currentYear leaveType with
    | some b =>
      if b.remaining < totalDays then
        (SubmitOutcome.insufficientBalance b.remaining totalDays, st)
      else proceed
    | none => proceed

/-- The decision body status written into a sub-approval record. -/
def decisionStatus : Decision → ApprovalStatus
  | Decision.approved => ApprovalStatus.approved
  | Decision.rejected => ApprovalStatus.rejected

/-- The mutation `PUT /approve/:id` applies to a fetched leave request:
a `manager` (or `admin`) actor overwrites `managerApproval`, a `coordinator`
(or `admin`) actor overwrites `coordinatorApproval`, and then the overall
status is updated — set to `rejected` when the decision is `rejected`, set
to `approved` when both sub-approvals now read `approved`, and otherwise
left as it was. -/
def applyDecision (r : LeaveRequest) (role : Role) (userId : Nat) (now : Int)
    (decision : Decision) (comments : Option String) : LeaveRequest :=
  let sub : SubApproval :=
    { status := decisionStatus decision, approvedBy := some userId,
      approvedAt := some now, comments := comments }
  let r1 := if role = Role.manager ∨ role = Role.admin then
    { r with managerApproval := sub } else r
  let r2 := if role = Role.coordinator ∨ role = Role.admin then
    { r1 with coordinatorApproval := sub } else r1
  if decision = Decision.rejected then
    { r2 with status := OverallStatus.rejected }
  else if r2.managerApproval.status = ApprovalStatus.approved ∧
      r2.coordinatorApproval.status = ApprovalStatus.approved then
    { r2 with status := OverallStatus.approved }
  else r2

/-- Outcome of the decision handler, as seen by the HTTP caller. -/
inductive DecideOutcome
  | notFound
  | ok (req : LeaveRequest)
  | serverError
deriving DecidableEq, Repr

/-- The `PUT /approve/:id` handler: fetch by id (404 when absent), apply the
decision, save, then notify the employee.  `emailOk` tells whether
`sendEmailNotification` resolves; a rejected promise is caught by the
generic `catch` after the save already happened. -/
def decide (st : Store) (reqId : Nat) (role : Role) (userId : Nat) (now : Int)
    (decision : Decision) (comments : Option String) (emailOk : Bool) :
    DecideOutcome × Store :=
  match st.requests.find? (fun r => r.id == reqId) with
  | none => (DecideOutcome.notFound, st)
  | some r =>
    let r2 := applyDecision r role userId now decision comments
    let st2 : Store :=
      { st with requests := st.requests.map (fun q => if q.id == reqId then r2 else q) }
    if emailOk then (DecideOutcome.ok r2, st2) else (DecideOutcome.serverError, st2)

/-- Outcome of the cancellation handler, as seen by the HTTP caller. -/
inductive CancelOutcome
  | notFound
  | ok (req : LeaveRequest)
deriving DecidableEq, Repr

/-- The `PUT /cancel/:id` handler:
`findOne({ _id: reqId, employee: employeeId, status: 'pending' })`, 404 when
nothing matches, otherwise set the status to `cancelled` and save. -/
def cancel (st : Store) (reqId employeeId : Nat) : CancelOutcome × Store :=
  match st.requests.find? (fun r => r.id == reqId && r.employee == employeeId &&
      r.status == OverallStatus.pending) with
  | none => (CancelOutcome.notFound, st)
  | some r =>
    let r2 := { r with status := OverallStatus.cancelled }
    (CancelOutcome.ok r2,
      { st with requests := st.requests.map (fun q => if q.id == r.id then r2 else q) })

/-- The query predicate built by `GET /pending-approvals`: a `manager` actor
queries for either sub-approval `pending`, a `coordinator` actor for the
coordinator sub-approval `pending`, and any other admitted actor (`admin`)
keeps the empty query, which matches every document. -/
def pendingQueryMatches (role : Role) (r : LeaveRequest) : Bool :=
  if role = Role.manager then
    r.managerApproval.status == ApprovalStatus.pending ||
      r.coordinatorApproval.status == ApprovalStatus.pending
  else if role = Role.coordinator then
    r.coordinatorApproval.status == ApprovalStatus.pending
  else true

/-- The set of requests returned by `GET /pending-approvals` (the handler
additionally sorts by creation time, which does not change membership). -/
def pendingApprovals (st : Store) (role : Role) : List LeaveRequest :=
  st.requests.filter (pendingQueryMatches role)

/-- The spec's pure derivation rule for the overall status, stated from the
spec's words for comparison with the behaviour of `applyDecision`:
rejected when either sub-approval is rejected, approved when both are
approved, pending otherwise. -/
def deriveOverall (m c : ApprovalStatus) : OverallStatus :=
  if m = ApprovalStatus.rejected ∨ c = ApprovalStatus.rejected then
    OverallStatus.rejected
  else if m = ApprovalStatus.approved ∧ c = ApprovalStatus.approved then
    OverallStatus.approved
  else OverallStatus.pending

/-! Helper lemmas shared by the claim theorems. -/

/-- `jsCeilDiv` computes the mathematical ceiling of the exact rational
quotient, for a natural divisor. -/
theorem jsCeilDiv_eq_ceil (a : ℤ) (b : ℕ) : jsCeilDiv a (b : ℤ) = ⌈(a : ℚ) / (b : ℚ)⌉ := by
  have h1 : ⌈(a : ℚ) / (b : ℚ)⌉ = -⌊-((a : ℚ) / (b : ℚ))⌋ := by
    rw [Int.floor_neg]; ring_nf
  rw [jsCeilDiv, h1, ← neg_div, ← Int.cast_neg, Rat.floor_intCast_div_natCast,
    Int.fdiv_eq_ediv _ (by positivity)]

/-- The day count is the ceiling of the millisecond difference over a day,
plus one. -/
theorem computeTotalDays_eq_ceil (s e : ℤ) :
    computeTotalDays s e = ⌈((e - s : ℤ) : ℚ) / 86400000⌉ + 1 := by
  have h : msPerDay = ((86400000 : ℕ) : ℤ) := by norm_num [msPerDay]
  rw [computeTotalDays, h, jsCeilDiv_eq_ceil]
  norm_num

/-- With a strictly positive millisecond difference the ceiling is at least
one, so the day count is at least two. -/
theorem computeTotalDays_ge_two (s e : ℤ) (hlt : s < e) :
    2 ≤ computeTotalDays s e := by
  rw [computeTotalDays_eq_ceil]
  have hpos : (0 : ℚ) < ((e - s : ℤ) : ℚ) / 86400000 := by
    have : (0 : ℚ) < ((e - s : ℤ) : ℚ) := by
      exact_mod_cast sub_pos.mpr hlt
    positivity
  have : 0 < ⌈((e - s : ℤ) : ℚ) / 86400000⌉ := Int.ceil_pos.mpr hpos
  omega

/-- Inversion of a successful submission: the date checks passed, the
returned request is the fresh document and it was appended to the store. -/
theorem submit_created_inv (st : Store) (freshId employeeId : Nat)
    (lt : LeaveType) (s e : Int) (reason : String) (ay : Option String)
    (now : Int) (nowYear : String) (hasManager emailOk : Bool)
    (req : LeaveRequest) (st' : Store)
    (h : submit st freshId employeeId lt s e reason ay now nowYear hasManager emailOk
      = (SubmitOutcome.created req, st')) :
    s < e ∧ ¬ s < now ∧
      req = newRequest freshId employeeId lt s e reason (resolveYear ay nowYear) ∧
      st' = { st with requests := st.requests ++ [req] } := by
  by_cases h1 : s ≥ e
  · simp [submit, h1] at h
  by_cases h2 : s < now
  · simp [submit, h1, h2] at h
  refine ⟨lt_of_not_ge h1, h2, ?_⟩
  rcases hfb : findBalance st.balances employeeId (resolveYear ay nowYear) lt with _ | b <;>
    simp only [submit, if_neg h1, if_neg h2, hfb] at h
  · rcases hm : hasManager && !emailOk with _ | _ <;> simp only [hm] at h <;> simp at h
    obtain ⟨hreq, hst⟩ := h
    subst hreq; subst hst
    exact ⟨rfl, rfl⟩
  · by_cases hr : b.remaining < computeTotalDays s e
    · simp [hr] at h
    simp only [if_neg hr] at h
    rcases hm : hasManager && !emailOk with _ | _ <;> simp only [hm] at h <;> simp at h
    obtain ⟨hreq, hst⟩ := h
    subst hreq; subst hst
    exact ⟨rfl, rfl⟩

/-- Claim C2: for every submission accepted past the range and past-date
checks, the computed `totalDays` of the created request equals
`⌈(endDate − startDate) in milliseconds / (24 hours in milliseconds)⌉ + 1`,
the inclusive day count of both endpoints. -/
theorem submit_totalDays_inclusive (st : Store) (freshId employeeId : Nat)
    (lt : LeaveType) (s e : Int) (reason : String) (ay : Option String)
    (now : Int) (nowYear : String) (hasManager emailOk : Bool)
    (req : LeaveRequest) (st' : Store)
    (h : submit st freshId employeeId lt s e reason ay now nowYear hasManager emailOk
      = (SubmitOutcome.created req, st')) :
    req.totalDays = ⌈((e - s : ℤ) : ℚ) / 86400000⌉ + 1 := by
  obtain ⟨-, -, hreq, -⟩ := submit_created_inv st freshId employeeId lt s e reason ay
    now nowYear hasManager emailOk req st' h
  subst hreq
  simpa [newRequest] using computeTotalDays_eq_ceil s e

/-- Claim C2 witness: submitting 2025-06-01 through 2025-06-03 (date-only,
epoch milliseconds 1748736000000 and 1748908800000) yields `totalDays = 3`. -/
theorem submit_totalDays_inclusive_witness :
    (newRequest 1 7 LeaveType.vacation 1748736000000 1748908800000 "trip" "2025").totalDays
      = 3 := by
  have h := submit_totalDays_inclusive (Store.mk [] []) 1 7 LeaveType.vacation
    1748736000000 1748908800000 "trip" none 1748736000000 "2025" false true
    (newRequest 1 7 LeaveType.vacation 1748736000000 1748908800000 "trip" "2025")
    (Store.mk [newRequest 1 7 LeaveType.vacation 1748736000000 1748908800000 "trip" "2025"] [])
    (by decide)
  rw [h, show ((1748908800000 - 1748736000000 : ℤ) : ℚ) = 172800000 by norm_num,
    show (172800000 : ℚ) / 86400000 = 2 by norm_num]
  norm_num

/-- Claim C9: every request that passes submission validation has
`totalDays ≥ 2`: the ordering check makes the millisecond difference
strictly positive, its ceiling is at least 1 and the `+ 1` makes the
minimum two — a single-day leave is impossible through this interface. -/
theorem submit_totalDays_ge_two (st : Store) (freshId employeeId : Nat)
    (lt : LeaveType) (s e : Int) (reason : String) (ay : Option String)
    (now : Int) (nowYear : String) (hasManager emailOk : Bool)
    (req : LeaveRequest) (st' : Store)
    (h : submit st freshId employeeId lt s e reason ay now nowYear hasManager emailOk
      = (SubmitOutcome.created req, st')) :
    2 ≤ req.totalDays := by
  obtain ⟨hlt, -, hreq, -⟩ := submit_created_inv st freshId employeeId lt s e reason ay
    now nowYear hasManager emailOk req st' h
  subst hreq
  simpa [newRequest] using computeTotalDays_ge_two s e hlt

/-- Claim C9 witness: a request spanning a single millisecond still counts
two days. -/
theorem submit_totalDays_ge_two_witness :
    2 ≤ (newRequest 2 8 LeaveType.sick 1000 1001 "s" "2025").totalDays :=
  submit_totalDays_ge_two (Store.mk [] []) 2 8 LeaveType.sick 1000 1001 "s" none
    500 "2025" false true (newRequest 2 8 LeaveType.sick 1000 1001 "s" "2025")
    (Store.mk [newRequest 2 8 LeaveType.sick 1000 1001 "s" "2025"] [])
    (by decide)

/-- Claim C6 counterexample: with `startDate = 0`, `endDate = 0` and
`now = 100`, the start date is in the past (`0 < 100`) yet the handler
fails with the invalid-range outcome, not the past-date outcome, because
the ordering check runs first. -/
theorem submit_pastDate_shadowed_by_range :
    (0 : Int) < 100 ∧
    submit (Store.mk [] []) 1 7 LeaveType.sick 0 0 "r" none 100 "2025" false true
      = (SubmitOutcome.invalidRange, Store.mk [] []) ∧
    SubmitOutcome.invalidRange ≠ SubmitOutcome.pastDate := by
  refine ⟨by norm_num, by decide, by decide⟩

/-- Claim C6 (amended): submission fails with `InvalidRange` whenever
`startDate ≥ endDate`; it fails with `PastDate` whenever the ordering check
passes (`startDate < endDate`) and `startDate` is earlier than the current
moment; in both cases the store is unchanged — nothing is persisted. -/
theorem submit_date_validation (st : Store) (freshId employeeId : Nat)
    (lt : LeaveType) (s e : Int) (reason : String) (ay : Option String)
    (now : Int) (nowYear : String) (hasManager emailOk : Bool) :
    (s ≥ e →
      submit st freshId employeeId lt s e reason ay now nowYear hasManager emailOk
        = (SubmitOutcome.invalidRange, st)) ∧
    (s < e → s < now →
      submit st freshId employeeId lt s e reason ay now nowYear hasManager emailOk
        = (SubmitOutcome.pastDate, st)) := by
  constructor
  · intro h1
    simp [submit, h1]
  · intro h1 h2
    simp [submit, if_neg (not_le.mpr h1), h2]

/-- Claim C6 witness: a reversed range is rejected as invalid-range and a
past start date with a valid range is rejected as past-date, both leaving
the store unchanged. -/
theorem submit_date_validation_witness :
    submit (Store.mk [] []) 1 7 LeaveType.other 5 3 "r" none 0 "2025" false true
      = (SubmitOutcome.invalidRange, Store.mk [] []) ∧
    submit (Store.mk [] []) 1 7 LeaveType.other 3 5 "r" none 10 "2025" false true
      = (SubmitOutcome.pastDate, Store.mk [] []) :=
  ⟨(submit_date_validation (Store.mk [] []) 1 7 LeaveType.other 5 3 "r" none 0 "2025"
      false true).1 (by norm_num),
   (submit_date_validation (Store.mk [] []) 1 7 LeaveType.other 3 5 "r" none 10 "2025"
      false true).2 (by norm_num) (by norm_num)⟩

/-- Claim C3: past the date checks, if a balance ledger entry exists for the
(employee, resolved year, leave type) triple with `remaining` strictly below
the computed day count, the submission fails with the insufficient-balance
outcome reporting the available and requested amounts and the store is
unchanged; if no ledger entry exists for the triple, the balance check is
skipped and the request is persisted. -/
theorem submit_balance_check (st : Store) (freshId employeeId : Nat)
    (lt : LeaveType) (s e : Int) (reason : String) (ay : Option String)
    (now : Int) (nowYear : String) (hasManager emailOk : Bool) (b : LeaveBalance)
    (h1 : s < e) (h2 : ¬ s < now) :
    (findBalance st.balances employeeId (resolveYear ay nowYear) lt = some b →
      b.remaining < computeTotalDays s e →
      submit st freshId employeeId lt s e reason ay now nowYear hasManager emailOk
        = (SubmitOutcome.insufficientBalance b.remaining (computeTotalDays s e), st)) ∧
    (findBalance st.balances employeeId (resolveYear ay nowYear) lt = none →
      (submit st freshId employeeId lt s e reason ay now nowYear hasManager emailOk).2.requests
        = st.requests ++
          [newRequest freshId employeeId lt s e reason (resolveYear ay nowYear)]) := by
  constructor
  · intro hfb hr
    simp [submit, if_neg (not_le.mpr h1), if_neg h2, hfb, hr]
  · intro hfb
    simp only [submit, if_neg (not_le.mpr h1), if_neg h2, hfb]
    split <;> rfl

/-- Claim C3 witness: a ledger entry with `remaining = 2` blocks a
three-day request and leaves the store (the ledger entry included)
unchanged, while with no ledger entry the same request is persisted. -/
theorem submit_balance_check_witness :
    submit (Store.mk [] [LeaveBalance.mk 7 "2025" LeaveType.sick 10 8 2]) 1 7
        LeaveType.sick 0 172800000 "r" none 0 "2025" false true
      = (SubmitOutcome.insufficientBalance 2 3,
         Store.mk [] [LeaveBalance.mk 7 "2025" LeaveType.sick 10 8 2]) ∧
    (submit (Store.mk [] []) 1 7 LeaveType.sick 0 172800000 "r" none 0 "2025"
        false true).2.requests
      = [newRequest 1 7 LeaveType.sick 0 172800000 "r" "2025"] :=
  ⟨(submit_balance_check (Store.mk [] [LeaveBalance.mk 7 "2025" LeaveType.sick 10 8 2])
      1 7 LeaveType.sick 0 172800000 "r" none 0 "2025" false true
      (LeaveBalance.mk 7 "2025" LeaveType.sick 10 8 2)
      (by norm_num) (by norm_num)).1 (by decide) (by decide),
   (submit_balance_check (Store.mk [] []) 1 7 LeaveType.sick 0 172800000 "r" none 0
      "2025" false true (LeaveBalance.mk 7 "2025" LeaveType.sick 10 8 2)
      (by norm_num) (by norm_num)).2 (by decide)⟩

/-- Claim C7 counterexample: a valid submission whose notification dispatch
fails (the employee has a manager and the email promise rejects) returns the
generic server-error outcome to the caller — not the success response —
even though the created request was persisted. -/
theorem submit_email_failure_returns_error :
    submit (Store.mk [] []) 1 7 LeaveType.personal 0 86400000 "r" none 0 "2025" true false
      = (SubmitOutcome.serverError,
         Store.mk [newRequest 1 7 LeaveType.personal 0 86400000 "r" "2025"] []) ∧
    SubmitOutcome.serverError
      ≠ SubmitOutcome.created (newRequest 1 7 LeaveType.personal 0 86400000 "r" "2025") := by
  refine ⟨by decide, by decide⟩

/-- Claim C7 (amended): a notification failure never rolls back the
already-persisted transition — the created request stays appended and the
decided request stays saved — but it is propagated: the handler's generic
catch answers with a server error instead of the success response. -/
theorem notification_failure_persists_but_propagates
    (st : Store) (freshId employeeId : Nat) (lt : LeaveType) (s e : Int)
    (reason : String) (ay : Option String) (now : Int) (nowYear : String)
    (st2 : Store) (reqId : Nat) (role : Role) (uid : Nat) (now2 : Int)
    (dec : Decision) (c : Option String) (r : LeaveRequest)
    (h1 : s < e) (h2 : ¬ s < now)
    (hfb : findBalance st.balances employeeId (resolveYear ay nowYear) lt = none)
    (hfind : st2.requests.find? (fun q => q.id == reqId) = some r) :
    submit st freshId employeeId lt s e reason ay now nowYear true false
      = (SubmitOutcome.serverError,
         { st with requests := st.requests ++
            [newRequest freshId employeeId lt s e reason (resolveYear ay nowYear)] }) ∧
    decide st2 reqId role uid now2 dec c false
      = (DecideOutcome.serverError,
         { st2 with requests := (st2.requests.map
            (fun q => if q.id == reqId then applyDecision r role uid now2 dec c else q)) }) := by
  constructor
  · simp [submit, if_neg (not_le.mpr h1), if_neg h2, hfb]
  · simp [decide, hfind]

/-- Claim C7 witness: with a failing email service, a concrete submission
and a concrete decision both persist their transition yet answer with the
server-error outcome. -/
theorem notification_failure_persists_but_propagates_witness :
    submit (Store.mk [] []) 1 7 LeaveType.personal 100 86400000 "w" none 50 "2025" true false
      = (SubmitOutcome.serverError,
         Store.mk [newRequest 1 7 LeaveType.personal 100 86400000 "w" "2025"] []) ∧
    decide
        (Store.mk [LeaveRequest.mk 3 7 LeaveType.sick 0 86400000 2 "w" "2025"
          OverallStatus.pending freshSubApproval freshSubApproval] [])
        3 Role.manager 9 60 Decision.approved none false
      = (DecideOutcome.serverError,
         Store.mk [applyDecision
            (LeaveRequest.mk 3 7 LeaveType.sick 0 86400000 2 "w" "2025"
              OverallStatus.pending freshSubApproval freshSubApproval)
            Role.manager 9 60 Decision.approved none] []) :=
  notification_failure_persists_but_propagates (Store.mk [] []) 1 7 LeaveType.personal
    100 86400000 "w" none 50 "2025"
    (Store.mk [LeaveRequest.mk 3 7 LeaveType.sick 0 86400000 2 "w" "2025"
      OverallStatus.pending freshSubApproval freshSubApproval] [])
    3 Role.manager 9 60 Decision.approved none
    (LeaveRequest.mk 3 7 LeaveType.sick 0 86400000 2 "w" "2025"
      OverallStatus.pending freshSubApproval freshSubApproval)
    (by norm_num) (by norm_num) (by decide) (by decide)

/-- Claim C1 counterexample: the overall status after a decide call is not
the pure derivation of the two sub-approval states.  Reachable run: a
manager rejects a fresh pending request (status becomes rejected), then the
same manager re-decides approved; the sub-approvals now read
(approved, pending), whose derivation is pending, but the stored status
stays rejected — the handler never recomputes pending. -/
theorem overall_status_not_pure_derivation :
    ¬ ∀ (st : Store) (reqId : Nat) (role : Role) (uid : Nat) (now : Int)
        (dec : Decision) (c : Option String) (eok : Bool) (r : LeaveRequest),
      (decide st reqId role uid now dec c eok).1 = DecideOutcome.ok r →
        r.status = deriveOverall r.managerApproval.status r.coordinatorApproval.status := by
  intro h
  have h2 := h
    (decide (Store.mk [LeaveRequest.mk 1 7 LeaveType.vacation 0 86400000 2 "r" "2025"
        OverallStatus.pending freshSubApproval freshSubApproval] [])
      1 Role.manager 9 50 Decision.rejected none true).2
    1 Role.manager 9 60 Decision.approved none true
    (LeaveRequest.mk 1 7 LeaveType.vacation 0 86400000 2 "r" "2025" OverallStatus.rejected
      (SubApproval.mk ApprovalStatus.approved (some 9) (some 60) none) freshSubApproval)
    (by decide)
  exact absurd h2 (by decide)

/-- Claim C1 (amended): after a decide call on an existing request, the
overall status is rejected when the decision is rejected, approved when both
sub-approvals read approved after the mutation, and otherwise unchanged from
before the call — it is never recomputed to pending. -/
theorem overall_status_update (st : Store) (reqId : Nat) (role : Role) (uid : Nat)
    (now : Int) (dec : Decision) (c : Option String) (eok : Bool) (r r2 : LeaveRequest)
    (hfind : st.requests.find? (fun q => q.id == reqId) = some r)
    (hok : (decide st reqId role uid now dec c eok).1 = DecideOutcome.ok r2) :
    r2.status =
      if dec = Decision.rejected then OverallStatus.rejected
      else if r2.managerApproval.status = ApprovalStatus.approved ∧
          r2.coordinatorApproval.status = ApprovalStatus.approved then
        OverallStatus.approved
      else r.status := by
  have hr2 : r2 = applyDecision r role uid now dec c := by
    simp only [decide, hfind] at hok
    cases eok <;> simp at hok
    exact hok.symm
  subst hr2
  cases dec <;> cases role <;>
    simp [applyDecision, decisionStatus] <;>
    split_ifs <;> simp_all

/-- Claim C1 amended witness: a lone manager approval on a fresh pending
request leaves the overall status pending (unchanged). -/
theorem overall_status_update_witness :
    (LeaveRequest.mk 1 7 LeaveType.vacation 0 86400000 2 "r" "2025" OverallStatus.pending
      (SubApproval.mk ApprovalStatus.approved (some 9) (some 60) none)
      freshSubApproval).status = OverallStatus.pending :=
  overall_status_update
    (Store.mk [LeaveRequest.mk 1 7 LeaveType.vacation 0 86400000 2 "r" "2025"
      OverallStatus.pending freshSubApproval freshSubApproval] [])
    1 Role.manager 9 60 Decision.approved none true
    (LeaveRequest.mk 1 7 LeaveType.vacation 0 86400000 2 "r" "2025"
      OverallStatus.pending freshSubApproval freshSubApproval)
    (LeaveRequest.mk 1 7 LeaveType.vacation 0 86400000 2 "r" "2025" OverallStatus.pending
      (SubApproval.mk ApprovalStatus.approved (some 9) (some 60) none) freshSubApproval)
    (by decide) (by decide)

/-- Claim C4: the decision handler fetches by id with no status guard, so a
rejected decision on a cancelled request overwrites the terminal cancelled
status with rejected — evaluated here at the failing input. -/
theorem decide_overrides_cancelled :
    decide (Store.mk [LeaveRequest.mk 1 7 LeaveType.sick 0 86400000 2 "r" "2025"
        OverallStatus.cancelled freshSubApproval freshSubApproval] [])
      1 Role.manager 9 50 Decision.rejected none true
      = (DecideOutcome.ok (LeaveRequest.mk 1 7 LeaveType.sick 0 86400000 2 "r" "2025"
          OverallStatus.rejected
          (SubApproval.mk ApprovalStatus.rejected (some 9) (some 50) none) freshSubApproval),
         Store.mk [LeaveRequest.mk 1 7 LeaveType.sick 0 86400000 2 "r" "2025"
          OverallStatus.rejected
          (SubApproval.mk ApprovalStatus.rejected (some 9) (some 50) none) freshSubApproval] []) ∧
    OverallStatus.rejected ≠ OverallStatus.cancelled := by
  refine ⟨by decide, by decide⟩

/-- Claim C5: cancellation succeeds exactly when some stored request matches
id, owner and pending status together; on any failure the outcome is the
single not-found answer and the store is unchanged; on success the returned
request is the caller's pending request with status set to cancelled. -/
theorem cancel_guard (st : Store) (reqId employeeId : Nat) :
    ((cancel st reqId employeeId).1 ≠ CancelOutcome.notFound ↔
      ∃ r ∈ st.requests, r.id = reqId ∧ r.employee = employeeId ∧
        r.status = OverallStatus.pending) ∧
    ((cancel st reqId employeeId).1 = CancelOutcome.notFound →
      (cancel st reqId employeeId).2 = st) ∧
    (∀ r2, (cancel st reqId employeeId).1 = CancelOutcome.ok r2 →
      r2.status = OverallStatus.cancelled ∧ r2.id = reqId ∧ r2.employee = employeeId) := by
  rcases hf : st.requests.find? (fun r => r.id == reqId && r.employee == employeeId &&
      r.status == OverallStatus.pending) with _ | r
  · refine ⟨⟨fun hne => absurd (show (cancel st reqId employeeId).1 = CancelOutcome.notFound
        by simp [cancel, hf]) hne, ?_⟩,
      fun _ => by simp [cancel, hf], fun r2 h => by simp [cancel, hf] at h⟩
    rintro ⟨a, ha, hid, hemp, hst⟩
    have := List.find?_eq_none.mp hf a ha
    simp [hid, hemp, hst] at this
  · have hp := List.find?_some hf
    simp only [Bool.and_eq_true, beq_iff_eq] at hp
    obtain ⟨⟨hid, hemp⟩, hst⟩ := hp
    have hmem := List.mem_of_find?_eq_some hf
    refine ⟨⟨fun _ => ⟨r, hmem, hid, hemp, hst⟩, fun _ => by simp [cancel, hf]⟩,
      fun habs => absurd habs (by simp [cancel, hf]), ?_⟩
    intro r2 h
    simp only [cancel, hf] at h
    simp at h
    subst h
    exact ⟨rfl, hid, hemp⟩

/-- Claim C5 witness: cancelling one's own pending request succeeds with
status cancelled; a non-owner's attempt on the same request answers
not-found and leaves the store untouched. -/
theorem cancel_guard_witness :
    (cancel (Store.mk [LeaveRequest.mk 1 7 LeaveType.sick 0 86400000 2 "r" "2025"
        OverallStatus.pending freshSubApproval freshSubApproval] []) 1 7).1
      ≠ CancelOutcome.notFound ∧
    (cancel (Store.mk [LeaveRequest.mk 1 7 LeaveType.sick 0 86400000 2 "r" "2025"
        OverallStatus.pending freshSubApproval freshSubApproval] []) 1 8).2
      = Store.mk [LeaveRequest.mk 1 7 LeaveType.sick 0 86400000 2 "r" "2025"
          OverallStatus.pending freshSubApproval freshSubApproval] [] ∧
    (LeaveRequest.mk 1 7 LeaveType.sick 0 86400000 2 "r" "2025"
      OverallStatus.cancelled freshSubApproval freshSubApproval).status
      = OverallStatus.cancelled :=
  ⟨(cancel_guard (Store.mk [LeaveRequest.mk 1 7 LeaveType.sick 0 86400000 2 "r" "2025"
      OverallStatus.pending freshSubApproval freshSubApproval] []) 1 7).1.mpr
      ⟨LeaveRequest.mk 1 7 LeaveType.sick 0 86400000 2 "r" "2025"
        OverallStatus.pending freshSubApproval freshSubApproval,
       by decide, rfl, rfl, rfl⟩,
   (cancel_guard (Store.mk [LeaveRequest.mk 1 7 LeaveType.sick 0 86400000 2 "r" "2025"
      OverallStatus.pending freshSubApproval freshSubApproval] []) 1 8).2.1 (by decide),
   ((cancel_guard (Store.mk [LeaveRequest.mk 1 7 LeaveType.sick 0 86400000 2 "r" "2025"
      OverallStatus.pending freshSubApproval freshSubApproval] []) 1 7).2.2
      (LeaveRequest.mk 1 7 LeaveType.sick 0 86400000 2 "r" "2025"
        OverallStatus.cancelled freshSubApproval freshSubApproval) (by decide)).1⟩

/-- Claim C8: neither a decide call nor a cancel call ever writes the
balance ledger — the list of balance records, with every totalAllocated,
used and remaining field, is returned unchanged. -/
theorem approval_and_cancel_preserve_balances (st : Store) (reqId : Nat)
    (role : Role) (uid : Nat) (now : Int) (dec : Decision) (c : Option String)
    (eok : Bool) (employeeId : Nat) :
    (decide st reqId role uid now dec c eok).2.balances = st.balances ∧
    (cancel st reqId employeeId).2.balances = st.balances := by
  constructor
  · rcases hf : st.requests.find? (fun r => r.id == reqId) with _ | r <;>
      cases eok <;> simp [decide, hf]
  · rcases hf : st.requests.find? (fun r => r.id == reqId && r.employee == employeeId &&
      r.status == OverallStatus.pending) with _ | r <;> simp [cancel, hf]

/-- Claim C10: the pending-approvals listing for an admin actor uses the
empty query and returns every stored request regardless of status, while a
manager sees exactly the requests with either sub-approval pending and a
coordinator exactly those with the coordinator sub-approval pending. -/
theorem pendingApprovals_role_scope (st : Store) :
    pendingApprovals st Role.admin = st.requests ∧
    (∀ r, r ∈ pendingApprovals st Role.manager ↔ r ∈ st.requests ∧
      (r.managerApproval.status = ApprovalStatus.pending ∨
        r.coordinatorApproval.status = ApprovalStatus.pending)) ∧
    (∀ r, r ∈ pendingApprovals st Role.coordinator ↔ r ∈ st.requests ∧
      r.coordinatorApproval.status = ApprovalStatus.pending) := by
  refine ⟨?_, fun r => ?_, fun r => ?_⟩
  · simp [pendingApprovals, pendingQueryMatches]
  · simp [pendingApprovals, pendingQueryMatches, List.mem_filter]
  · simp [pendingApprovals, pendingQueryMatches, List.mem_filter]

end LeaveApproval
